import Mathlib

/-!
Shallow embedding of the badminton-smash-calculator measurement-to-speed
pipeline, together with theorems checking the specification's claims.

Modelling conventions:
* JavaScript numbers are modelled as real numbers.  The IEEE-754 double range
  boundary matters to the code (its `isFinite` guards exist because `Math.exp`
  can overflow), so "the double `r` is finite" is modelled as
  `|r| ≤ maxDouble`, where `maxDouble` is `Number.MAX_VALUE`.  A real value
  whose magnitude exceeds `maxDouble` models a JavaScript `Infinity`.
  Rounding error of individual float operations is not modelled.
* `NaN` produced by coercing a non-numeric value (`Number(x)` giving `NaN`,
  fed through `(… || 0)`) is modelled with `Option ℝ` (`none` = `NaN`).
* `NaN` produced arithmetically (`0/0` inside `calculateAngle`) is modelled by
  an `Option ℝ` result (`none` = the result is `NaN`).
-/

namespace SmashCalc

noncomputable section

/-- `Number.MAX_VALUE`, the largest finite IEEE-754 double. -/
def maxDouble : ℝ := 1.7976931348623157e308

/-- Model of JavaScript `isFinite` on the real model of a double: the double
value `r` is finite exactly when its magnitude does not exceed
`Number.MAX_VALUE`. -/
def isFiniteNum (r : ℝ) : Prop := |r| ≤ maxDouble

instance (r : ℝ) : Decidable (isFiniteNum r) :=
  inferInstanceAs (Decidable (|r| ≤ maxDouble))

/-- Result object of `calculateV0` (src/app.js lines 76-90): either
`{ error: msg }` or `{ v0, numerator, denominator, cosTheta, thetaRad }`. -/
inductive CalcResult where
  | error (msg : String)
  | ok (v0 numerator denominator cosTheta thetaRad : ℝ)

/-- Projection of the `v0` field (0 on the error object, whose `v0` is
`undefined`). -/
def CalcResult.v0D : CalcResult → ℝ
  | .error _ => 0
  | .ok v _ _ _ _ => v

/-- `calculateV0` from src/app.js lines 76-90.  `thetaDegrees` arrives through
`(Number(thetaDegrees) || 0)`: a `NaN` angle (modelled as `none`) is silently
coerced to `0`.
```
const thetaRad = (Number(thetaDegrees) || 0) * Math.PI / 180;
const numerator = Math.exp(kx * x) - 1;
const cosTheta = Math.cos(thetaRad);
const denominator = kx * t * cosTheta;
if (!isFinite(numerator) || !isFinite(denominator)) { return { error: … }; }
if (Math.abs(denominator) < 1e-12) { return { error: … }; }
return { v0: numerator / denominator, numerator, denominator, cosTheta, thetaRad };
```
-/
def calculateV0 (x t : ℝ) (thetaDegrees : Option ℝ) (kx : ℝ) : CalcResult :=
  if ¬(isFiniteNum (Real.exp (kx * x) - 1) ∧
       isFiniteNum (kx * t * Real.cos (thetaDegrees.getD 0 * Real.pi / 180))) then
    .error "Non-finite intermediate result; check inputs."
  else if |kx * t * Real.cos (thetaDegrees.getD 0 * Real.pi / 180)| < 1e-12 then
    .error "Denominator too small (near zero). Check t and θ."
  else
    .ok ((Real.exp (kx * x) - 1) / (kx * t * Real.cos (thetaDegrees.getD 0 * Real.pi / 180)))
      (Real.exp (kx * x) - 1)
      (kx * t * Real.cos (thetaDegrees.getD 0 * Real.pi / 180))
      (Real.cos (thetaDegrees.getD 0 * Real.pi / 180))
      (thetaDegrees.getD 0 * Real.pi / 180)

/-- Outcome of one click of the Calculate button: an error message shown in
the error box, or the three displayed speed values. -/
inductive ClickOutcome where
  | error (msg : String)
  | success (v0 v_kmh v_mph : ℝ)

/-- Projection of the displayed mph value (0 when an error is shown). -/
def ClickOutcome.mphD : ClickOutcome → ℝ
  | .error _ => 0
  | .success _ _ m => m

/-- The `btnCalc` click handler from src/app.js lines 93-147 (variant with a
visible `kₓ` input): validates that all four inputs are finite, that `t > 0`
and that `kx ≠ 0`, then calls `calculateV0` and derives
`v_kmh = v0 * 3.6`, `v_mph = v0 * 2.236936`. -/
def btnCalcClick (x t theta kx : ℝ) : ClickOutcome :=
  if ¬(isFiniteNum x ∧ isFiniteNum t ∧ isFiniteNum theta ∧ isFiniteNum kx) then
    .error "Please enter valid numeric values for all fields."
  else if t ≤ 0 then
    .error "Time must be > 0 seconds."
  else if kx = 0 then
    .error "kₓ must be non-zero for this formula."
  else
    match calculateV0 x t (some theta) kx with
    | .error e => .error e
    | .ok v0 _ _ _ _ => .success v0 (v0 * 3.6) (v0 * 2.236936)

/-- Canvas point of the angle tool (`{x, y}` objects in src/unnamed/part_001
lines 420-422). -/
@[ext] structure Pt where
  x : ℝ
  y : ℝ

/-- Magnitude `Math.sqrt(vx*vx + vy*vy)` of a vector, as written in
`calculateAngle` (src/unnamed/part_001 lines 596-597). -/
def vecMag (vx vy : ℝ) : ℝ := Real.sqrt (vx * vx + vy * vy)

/-- The pre-clamp angle of `calculateAngle` (src/unnamed/part_001 lines
595-600): `Math.acos(dotProduct / (baseMag * angleMag)) * (180 / Math.PI)`
for the vectors A→B and B→C. -/
def rawAngleDeg (bs be ae : Pt) : ℝ :=
  Real.arccos
      (((be.x - bs.x) * (ae.x - be.x) + (be.y - bs.y) * (ae.y - be.y)) /
        (vecMag (be.x - bs.x) (be.y - bs.y) * vecMag (ae.x - be.x) (ae.y - be.y))) *
    (180 / Real.pi)

/-- `calculateAngle` from src/unnamed/part_001 lines 585-608 (dot-product
variant).  When `baseMag * angleMag = 0` the JavaScript expression
`dotProduct / (baseMag * angleMag)` is `0/0 = NaN` (a zero magnitude forces a
zero dot product), `Math.acos`, `Math.min` and `Math.max` all propagate the
`NaN`, and the function returns `NaN`; this is the `none` branch.  Otherwise
the result is
`Math.max(0, Math.min(90, angle > 90 ? 180 - angle : angle))`. -/
def calculateAngle (bs be ae : Pt) : Option ℝ :=
  if vecMag (be.x - bs.x) (be.y - bs.y) * vecMag (ae.x - be.x) (ae.y - be.y) = 0 then
    none
  else
    some (max 0 (min 90
      (if rawAngleDeg bs be ae > 90 then 180 - rawAngleDeg bs be ae else rawAngleDeg bs be ae)))

/-- `calculateAngle` applied to an angle-rig state
`(baseLineStart, baseLineEnd, angleLineEnd)`. -/
def calculateAngleTriple (s : Pt × Pt × Pt) : Option ℝ :=
  calculateAngle s.1 s.2.1 s.2.2

/-- The `btnFlipAngle` click handler from src/unnamed/part_001 lines 551-582,
acting on the rig state `(baseLineStart, baseLineEnd, angleLineEnd)`: it swaps
the two baseline endpoints and then reflects `angleLineEnd` across the base
line via the projection formula
```
const dotProduct = (currentVecX * baseVecX + currentVecY * baseVecY);
const baseMagSq = baseVecX * baseVecX + baseVecY * baseVecY;
const projX = (dotProduct / baseMagSq) * baseVecX; …
angleLineEnd.x = baseLineEnd.x + 2 * projX - currentVecX; …
```
where the base vectors are taken after the swap.  (The `isFlipped` flag is
toggled too but read nowhere else in this variant.) -/
def btnFlipAngle (s : Pt × Pt × Pt) : Pt × Pt × Pt :=
  let bs := s.2.1
  let be := s.1
  let ae := s.2.2
  let baseVecX := be.x - bs.x
  let baseVecY := be.y - bs.y
  let currentVecX := ae.x - be.x
  let currentVecY := ae.y - be.y
  let dotProduct := currentVecX * baseVecX + currentVecY * baseVecY
  let baseMagSq := baseVecX * baseVecX + baseVecY * baseVecY
  (bs, be,
    ⟨be.x + 2 * (dotProduct / baseMagSq * baseVecX) - currentVecX,
     be.y + 2 * (dotProduct / baseMagSq * baseVecY) - currentVecY⟩)

/-- Normalized click coordinates `{nx, ny}` on the video overlay
(src/unnamed/part_001 lines 878-883). -/
@[ext] structure NPoint where
  nx : ℝ
  ny : ℝ

/-- `pxDistBetween` from src/unnamed/part_001 lines 884-889: normalized
coordinates are scaled by the video's intrinsic pixel dimensions
(`video.videoWidth` / `video.videoHeight`), then `Math.hypot` is taken. -/
def pxDistBetween (vw vh : ℝ) (p1 p2 : NPoint) : ℝ :=
  Real.sqrt (((p2.nx - p1.nx) * vw) * ((p2.nx - p1.nx) * vw) +
    ((p2.ny - p1.ny) * vh) * ((p2.ny - p1.ny) * vh))

/-- The `calib` state object of src/unnamed/part_001 line 851. -/
structure CalibState where
  p1 : Option NPoint
  p2 : Option NPoint
  metersPerPixel : Option ℝ
  pxDist : Option ℝ

/-- The calibration section of `compute` (src/unnamed/part_001 lines 938-950):
when both points are set it recomputes `metersPerPixel = knownMeters / px`
from scratch provided `knownMeters > 0 && px > 0`, and resets
`metersPerPixel` to `null` otherwise; when a point is missing the calibration
fields are left untouched. -/
def computeCalib (vw vh knownMeters : ℝ) (c : CalibState) : CalibState :=
  match c with
  | ⟨some q1, some q2, _, d⟩ =>
    if knownMeters > 0 ∧ pxDistBetween vw vh q1 q2 > 0 then
      ⟨some q1, some q2, some (knownMeters / pxDistBetween vw vh q1 q2),
        some (pxDistBetween vw vh q1 q2)⟩
    else
      ⟨some q1, some q2, none, d⟩
  | c => c

/-- A mark `{nx, ny, t}` recorded on the paused video
(src/unnamed/part_001 lines 1050, 1056). -/
structure TimedMark where
  nx : ℝ
  ny : ℝ
  t : ℝ

/-- The `info` record assembled by `compute` (src/unnamed/part_001 lines
930-936); every field starts out `null`. -/
structure SpeedInfo where
  distance_m : Option ℝ
  dt_s : Option ℝ
  speed_mps : Option ℝ
  speed_kmh : Option ℝ
  speed_mph : Option ℝ

/-- The all-`null` `info` record. -/
def emptyInfo : SpeedInfo := ⟨none, none, none, none, none⟩

/-- `toRad` from src/unnamed/part_001 lines 863-865 on an already-numeric
degree value. -/
def toRad (deg : ℝ) : ℝ := deg * Real.pi / 180

/-- The A/B section of `compute` (src/unnamed/part_001 lines 952-979):
```
const pxAB = pxDistBetween(A, B);
const dt = Math.abs(A.t - B.t);
if (calib.metersPerPixel && dt > 0) {
  let d = pxAB * calib.metersPerPixel;
  const theta = toRad(skewDegEl.value);
  const corrected = Math.cos(theta) || 1; // avoid NaN
  const v = (d / dt) / corrected;
  info.distance_m = d; info.dt_s = dt; info.speed_mps = v;
  info.speed_kmh = v * 3.6; info.speed_mph = v * 2.236936;
}
```
JavaScript truthiness of `calib.metersPerPixel` (`null` and `0` are falsy) is
modelled by the `Option` match plus the `m ≠ 0` conjunct; `cos θ || 1` is the
`if Real.cos … = 0 then 1` fallback. -/
def computeAB (vw vh : ℝ) (metersPerPixel : Option ℝ) (skewDeg : ℝ)
    (A B : Option TimedMark) : SpeedInfo :=
  match A, B with
  | some a, some b =>
    match metersPerPixel with
    | some m =>
      if m ≠ 0 ∧ |a.t - b.t| > 0 then
        ⟨some (pxDistBetween vw vh ⟨a.nx, a.ny⟩ ⟨b.nx, b.ny⟩ * m),
         some (|a.t - b.t|),
         some (pxDistBetween vw vh ⟨a.nx, a.ny⟩ ⟨b.nx, b.ny⟩ * m / |a.t - b.t| /
           (if Real.cos (toRad skewDeg) = 0 then 1 else Real.cos (toRad skewDeg))),
         some (pxDistBetween vw vh ⟨a.nx, a.ny⟩ ⟨b.nx, b.ny⟩ * m / |a.t - b.t| /
           (if Real.cos (toRad skewDeg) = 0 then 1 else Real.cos (toRad skewDeg)) * 3.6),
         some (pxDistBetween vw vh ⟨a.nx, a.ny⟩ ⟨b.nx, b.ny⟩ * m / |a.t - b.t| /
           (if Real.cos (toRad skewDeg) = 0 then 1 else Real.cos (toRad skewDeg)) * 2.236936)⟩
      else emptyInfo
    | none => emptyInfo
  | _, _ => emptyInfo

end

/-! ### Numeric helper lemmas -/

theorem exp_half_mul_self : Real.exp (1 / 2) * Real.exp (1 / 2) = Real.exp 1 := by
  rw [← Real.exp_add]
  norm_num

theorem exp_half_gt : (1.64872 : ℝ) < Real.exp (1 / 2) := by
  have h := Real.exp_one_gt_d9
  have hp : (0 : ℝ) < Real.exp (1 / 2) := Real.exp_pos _
  nlinarith [exp_half_mul_self]

theorem exp_half_lt : Real.exp (1 / 2) < 1.64873 := by
  have h := Real.exp_one_lt_d9
  have hp : (0 : ℝ) < Real.exp (1 / 2) := Real.exp_pos _
  nlinarith [exp_half_mul_self]

theorem isFiniteNum_of_small {r : ℝ} (h : |r| ≤ 10) : isFiniteNum r := by
  unfold isFiniteNum maxDouble
  norm_num at h ⊢
  nlinarith [abs_nonneg r]

theorem calculateV0_eval_c1 :
    calculateV0 10 2 (some 0) (1 / 20) =
      CalcResult.ok ((Real.exp (1 / 2) - 1) / (1 / 10)) (Real.exp (1 / 2) - 1) (1 / 10) 1 0 := by
  have e1 : ((some (0 : ℝ)).getD 0) * Real.pi / 180 = 0 := by simp
  have ekx : (1 / 20 : ℝ) * 10 = 1 / 2 := by norm_num
  have eden : (1 / 20 : ℝ) * 2 * Real.cos (((some (0 : ℝ)).getD 0) * Real.pi / 180) = 1 / 10 := by
    rw [e1, Real.cos_zero]; norm_num
  have hnum : isFiniteNum (Real.exp ((1 / 20 : ℝ) * 10) - 1) := by
    rw [ekx]
    refine isFiniteNum_of_small ?_
    rw [abs_le]
    constructor <;> nlinarith [exp_half_gt, exp_half_lt]
  unfold calculateV0
  rw [ekx, eden, if_neg, if_neg]
  · rw [e1, Real.cos_zero]
  · rw [abs_of_pos (by norm_num : (0 : ℝ) < 1 / 10)]
    norm_num
  · push_neg
    refine ⟨ekx ▸ hnum, isFiniteNum_of_small ?_⟩
    rw [abs_le]
    constructor <;> norm_num

theorem btnCalcClick_eval_c1 :
    btnCalcClick 10 2 0 (1 / 20) =
      ClickOutcome.success ((Real.exp (1 / 2) - 1) / (1 / 10))
        ((Real.exp (1 / 2) - 1) / (1 / 10) * 3.6)
        ((Real.exp (1 / 2) - 1) / (1 / 10) * 2.236936) := by
  have h1 : ¬¬(isFiniteNum (10 : ℝ) ∧ isFiniteNum (2 : ℝ) ∧ isFiniteNum (0 : ℝ) ∧
      isFiniteNum (1 / 20 : ℝ)) := by
    push_neg
    refine ⟨?_, ?_, ?_, ?_⟩ <;>
      · refine isFiniteNum_of_small ?_
        rw [abs_le]
        constructor <;> norm_num
  have h2 : ¬((2 : ℝ) ≤ 0) := by norm_num
  have h3 : ¬((1 / 20 : ℝ) = 0) := by norm_num
  unfold btnCalcClick
  rw [if_neg h1, if_neg h2, if_neg h3, calculateV0_eval_c1]

/-! ### Claim C1 -/

/-- C1 (amended): for the exponential-drag model with `x=10`, `t=2`,
`theta=0`, `k=0.05`, `calculateV0` returns numerator `exp(0.5) − 1 ≈ 0.64872`,
denominator `0.05*2*1 = 0.1` and speed `≈ 6.4872` m/s, and the click handler
derives `kmh = mps * 3.6 ≈ 23.354` and `mph = mps * 2.236936 ≈ 14.5115`
(between 14.5114 and 14.5117 — not `≈ 14.508` as claimed). -/
theorem c1_exponential_model_example :
    calculateV0 10 2 (some 0) (1 / 20) =
      CalcResult.ok ((Real.exp (1 / 2) - 1) / (1 / 10)) (Real.exp (1 / 2) - 1) (1 / 10) 1 0 ∧
    btnCalcClick 10 2 0 (1 / 20) =
      ClickOutcome.success ((Real.exp (1 / 2) - 1) / (1 / 10))
        ((Real.exp (1 / 2) - 1) / (1 / 10) * 3.6)
        ((Real.exp (1 / 2) - 1) / (1 / 10) * 2.236936) ∧
    (0.64872 : ℝ) < Real.exp (1 / 2) - 1 ∧ Real.exp (1 / 2) - 1 < 0.64873 ∧
    (6.4872 : ℝ) < (Real.exp (1 / 2) - 1) / (1 / 10) ∧
      (Real.exp (1 / 2) - 1) / (1 / 10) < 6.4873 ∧
    (23.3539 : ℝ) < (Real.exp (1 / 2) - 1) / (1 / 10) * 3.6 ∧
      (Real.exp (1 / 2) - 1) / (1 / 10) * 3.6 < 23.3543 ∧
    (14.5114 : ℝ) < (Real.exp (1 / 2) - 1) / (1 / 10) * 2.236936 ∧
      (Real.exp (1 / 2) - 1) / (1 / 10) * 2.236936 < 14.5117 := by
  have h10 : (Real.exp (1 / 2) - 1) / (1 / 10) = (Real.exp (1 / 2) - 1) * 10 := by ring
  refine ⟨calculateV0_eval_c1, btnCalcClick_eval_c1, ?_, ?_, ?_, ?_, ?_, ?_, ?_, ?_⟩ <;>
    · try rw [h10]
      nlinarith [exp_half_gt, exp_half_lt]

/-- C1 (counterexample): the displayed mph value at `x=10`, `t=2`, `theta=0`,
`k=0.05` is more than `0.003` away from the claimed `14.508` (it is
`≈ 14.5115`). -/
theorem c1_mph_counterexample :
    3 / 1000 < |(btnCalcClick 10 2 0 (1 / 20)).mphD - 14.508| := by
  rw [btnCalcClick_eval_c1]
  simp only [ClickOutcome.mphD]
  have h10 : (Real.exp (1 / 2) - 1) / (1 / 10) * 2.236936 =
      (Real.exp (1 / 2) - 1) * 22.36936 := by ring
  rw [h10, abs_of_pos] <;> nlinarith [exp_half_gt]

/-! ### Claim C2 -/

theorem isFiniteNum_zero : isFiniteNum (0 : ℝ) := by
  refine isFiniteNum_of_small ?_
  rw [abs_le]
  constructor <;> norm_num

/-- C2 (amended): for every finite `x`, `theta` and `k` (inputs passing the
handler's `isFinite` check), invoking the calculation with `t = 0` is
rejected with the error `"Time must be > 0 seconds."` and no speed result is
produced. -/
theorem c2_time_zero_rejected (x theta kx : ℝ) (hx : isFiniteNum x)
    (hth : isFiniteNum theta) (hkx : isFiniteNum kx) :
    btnCalcClick x 0 theta kx = ClickOutcome.error "Time must be > 0 seconds." := by
  have h1 : ¬¬(isFiniteNum x ∧ isFiniteNum (0 : ℝ) ∧ isFiniteNum theta ∧ isFiniteNum kx) := by
    push_neg
    exact ⟨hx, isFiniteNum_zero, hth, hkx⟩
  unfold btnCalcClick
  rw [if_neg h1, if_pos le_rfl]

/-- C2 (witness): the concrete instance `x=5`, `theta=3`, `k=0.05`, `t=0`. -/
theorem c2_time_zero_rejected_witness :
    btnCalcClick 5 0 3 (1 / 20) = ClickOutcome.error "Time must be > 0 seconds." :=
  c2_time_zero_rejected 5 3 (1 / 20)
    (isFiniteNum_of_small (by rw [abs_le]; constructor <;> norm_num))
    (isFiniteNum_of_small (by rw [abs_le]; constructor <;> norm_num))
    (isFiniteNum_of_small (by rw [abs_le]; constructor <;> norm_num))

/-- C2 (counterexample): with a non-finite distance input (`10^400` models a
JavaScript `Infinity`) and `t = 0`, the handler rejects with the
numeric-validity error, not the time-must-be-positive error — so the claim
does not hold for *every* `x`. -/
theorem c2_nonfinite_counterexample :
    btnCalcClick (10 ^ 400) 0 0 (1 / 20) =
      ClickOutcome.error "Please enter valid numeric values for all fields." ∧
    btnCalcClick (10 ^ 400) 0 0 (1 / 20) ≠
      ClickOutcome.error "Time must be > 0 seconds." := by
  have hbig : ¬ isFiniteNum ((10 : ℝ) ^ 400) := by
    unfold isFiniteNum maxDouble
    rw [abs_of_pos (by positivity)]
    norm_num
  have h1 : ¬(isFiniteNum ((10 : ℝ) ^ 400) ∧ isFiniteNum (0 : ℝ) ∧ isFiniteNum (0 : ℝ) ∧
      isFiniteNum (1 / 20 : ℝ)) := fun h => hbig h.1
  have he : btnCalcClick (10 ^ 400) 0 0 (1 / 20) =
      ClickOutcome.error "Please enter valid numeric values for all fields." := by
    unfold btnCalcClick
    rw [if_pos h1]
  refine ⟨he, ?_⟩
  rw [he]
  simp

/-! ### Claim C10 -/

/-- `window._debug_calc` (src/app.js line 204) simply forwards its four
arguments to `calculateV0`. -/
noncomputable def debugCalc : ℝ → ℝ → Option ℝ → ℝ → CalcResult := calculateV0

/-- C10: `calculateV0` silently coerces a `NaN` angle (modelled `none`) to
`0`; for every `x`, `t`, `kx` the result equals that at `theta = 0`, and via
`window._debug_calc` the C1 inputs with a non-numeric angle still compute the
`theta = 0` speed instead of producing an error. -/
theorem c10_nan_angle_coerced_to_zero :
    (∀ (x t kx : ℝ), calculateV0 x t none kx = calculateV0 x t (some 0) kx) ∧
    debugCalc 10 2 none (1 / 20) =
      CalcResult.ok ((Real.exp (1 / 2) - 1) / (1 / 10)) (Real.exp (1 / 2) - 1) (1 / 10) 1 0 := by
  constructor
  · intro x t kx
    rfl
  · exact (rfl :
      debugCalc 10 2 none (1 / 20) = calculateV0 10 2 (some 0) (1 / 20)).trans calculateV0_eval_c1

/-! ### Claim C8 -/

theorem exp_700_lt : Real.exp 700 < (2.72 : ℝ) ^ 700 := by
  have h : Real.exp 700 = Real.exp 1 ^ 700 := by
    rw [← Real.exp_nat_mul]
    norm_num
  rw [h]
  exact pow_lt_pow_left₀ (lt_trans Real.exp_one_lt_d9 (by norm_num)) (Real.exp_pos 1).le
    (by norm_num)

theorem exp_700_gt : (2.7 : ℝ) ^ 700 < Real.exp 700 := by
  have h : Real.exp 700 = Real.exp 1 ^ 700 := by
    rw [← Real.exp_nat_mul]
    norm_num
  rw [h]
  exact pow_lt_pow_left₀ (lt_trans (by norm_num) Real.exp_one_gt_d9) (by norm_num) (by norm_num)

theorem calculateV0_eval_c8 :
    calculateV0 700 (1e-12) (some 0) 1 =
      CalcResult.ok ((Real.exp 700 - 1) / (1e-12 : ℝ)) (Real.exp 700 - 1) (1e-12) 1 0 := by
  have e1 : ((some (0 : ℝ)).getD 0) * Real.pi / 180 = 0 := by simp
  have ekx : (1 : ℝ) * 700 = 700 := by norm_num
  have eden : (1 : ℝ) * 1e-12 * Real.cos (((some (0 : ℝ)).getD 0) * Real.pi / 180) =
      (1e-12 : ℝ) := by
    rw [e1, Real.cos_zero]
    norm_num
  have hone : (1 : ℝ) < Real.exp 700 := by
    rw [← Real.exp_zero]
    exact Real.exp_lt_exp.mpr (by norm_num)
  have hnumfin : isFiniteNum (Real.exp 700 - 1) := by
    unfold isFiniteNum maxDouble
    rw [abs_of_pos (by linarith)]
    have h272 : (2.72 : ℝ) ^ 700 < 1.7976931348623157e308 := by norm_num
    linarith [exp_700_lt]
  unfold calculateV0
  rw [ekx, eden, if_neg, if_neg]
  · rw [e1, Real.cos_zero]
  · rw [abs_of_pos (by norm_num : (0 : ℝ) < 1e-12)]
    norm_num
  · push_neg
    refine ⟨hnumfin, isFiniteNum_of_small ?_⟩
    rw [abs_le]
    constructor <;> norm_num

/-- C8 (amended): whenever `calculateV0` returns a success value, the
numerator is finite and `|denominator| ≥ 1e-12`, and `v0` is exactly
`numerator / denominator`; but that quotient is itself a finite double only
under the extra condition `|numerator| ≤ MAX_VALUE * |denominator|` — the
guards do not rule out overflow of the quotient. -/
theorem c8_success_guarantees (x t : ℝ) (th : Option ℝ) (kx v n d c r : ℝ)
    (h : calculateV0 x t th kx = CalcResult.ok v n d c r) :
    |n| ≤ maxDouble ∧ (1e-12 : ℝ) ≤ |d| ∧ v = n / d ∧
      (|n| ≤ maxDouble * |d| → |v| ≤ maxDouble) := by
  unfold calculateV0 at h
  split_ifs at h with h1 h2
  · rw [not_lt] at h2
    cases h
    have hdpos : (0 : ℝ) < |kx * t * Real.cos (th.getD 0 * Real.pi / 180)| :=
      lt_of_lt_of_le (by norm_num) h2
    refine ⟨h1.1, h2, rfl, fun hb => ?_⟩
    rw [abs_div, div_le_iff₀ hdpos]
    exact hb

/-- C8 (witness): the success guarantees instantiated at the C1 inputs. -/
theorem c8_success_guarantees_witness :
    |Real.exp (1 / 2) - 1| ≤ maxDouble ∧ (1e-12 : ℝ) ≤ |(1 / 10 : ℝ)| ∧
      (Real.exp (1 / 2) - 1) / (1 / 10) = (Real.exp (1 / 2) - 1) / (1 / 10) ∧
      (|Real.exp (1 / 2) - 1| ≤ maxDouble * |(1 / 10 : ℝ)| →
        |(Real.exp (1 / 2) - 1) / (1 / 10)| ≤ maxDouble) :=
  c8_success_guarantees 10 2 (some 0) (1 / 20) _ _ _ _ _ calculateV0_eval_c1

/-- C8 (counterexample): at `x=700`, `t=1e-12`, `theta=0`, `k=1` every guard
passes (`exp 700` is a finite double and the denominator is exactly `1e-12`),
yet the returned `v0 = (exp 700 − 1)/1e-12 ≈ 1.01e316` exceeds
`Number.MAX_VALUE`: in JavaScript this success object carries
`v0 = Infinity`. -/
theorem c8_overflow_counterexample :
    calculateV0 700 (1e-12) (some 0) 1 =
      CalcResult.ok ((Real.exp 700 - 1) / (1e-12 : ℝ)) (Real.exp 700 - 1) (1e-12) 1 0 ∧
    maxDouble < (Real.exp 700 - 1) / (1e-12 : ℝ) := by
  refine ⟨calculateV0_eval_c8, ?_⟩
  rw [lt_div_iff₀ (by norm_num : (0 : ℝ) < 1e-12)]
  have h27 : (1.7976931348623157e308 : ℝ) * 1e-12 + 1 < (2.7 : ℝ) ^ 700 := by norm_num
  unfold maxDouble
  linarith [exp_700_gt]

/-! ### Claim C3 -/

theorem pxDistBetween_example :
    pxDistBetween 1000 1000 ⟨0, 0⟩ ⟨3 / 10, 2 / 5⟩ = 500 := by
  unfold pxDistBetween
  norm_num
  rw [show (250000 : ℝ) = 500 ^ 2 by norm_num, Real.sqrt_sq (by norm_num : (0 : ℝ) ≤ 500)]

/-- C3: whenever both calibration points are set (and the positivity guards
pass), `compute` sets `metersPerPixel = knownMeters / pxDistBetween p1 p2`,
with `pxDistBetween` scaling normalized coordinates by the intrinsic video
dimensions; `5.18` m over an intrinsic-pixel distance of `500` gives exactly
`0.01036` m/px; and recomputation from unchanged inputs is idempotent. -/
theorem c3_calibration_model :
    (∀ (vw vh k : ℝ) (q1 q2 : NPoint) (c : CalibState),
        c.p1 = some q1 → c.p2 = some q2 →
        0 < k → 0 < pxDistBetween vw vh q1 q2 →
        (computeCalib vw vh k c).metersPerPixel = some (k / pxDistBetween vw vh q1 q2)) ∧
    pxDistBetween 1000 1000 ⟨0, 0⟩ ⟨3 / 10, 2 / 5⟩ = 500 ∧
    (computeCalib 1000 1000 5.18
        ⟨some ⟨0, 0⟩, some ⟨3 / 10, 2 / 5⟩, none, none⟩).metersPerPixel = some 0.01036 ∧
    (∀ (vw vh k : ℝ) (c : CalibState),
        computeCalib vw vh k (computeCalib vw vh k c) = computeCalib vw vh k c) := by
  refine ⟨?_, pxDistBetween_example, ?_, ?_⟩
  · intro vw vh k q1 q2 c hp1 hp2 hk hpx
    rcases c with ⟨p1, p2, m, d⟩
    cases hp1
    cases hp2
    simp only [computeCalib]
    rw [if_pos ⟨hk, hpx⟩]
  · simp only [computeCalib]
    rw [if_pos ⟨by norm_num, by rw [pxDistBetween_example]; norm_num⟩,
      pxDistBetween_example]
    norm_num
  · intro vw vh k c
    rcases c with ⟨p1, p2, m, d⟩
    cases p1 with
    | none => rfl
    | some q1 =>
      cases p2 with
      | none => rfl
      | some q2 =>
        simp only [computeCalib]
        split_ifs with hc
        · simp only [computeCalib]
          rw [if_pos hc]
        · simp only [computeCalib]
          rw [if_neg hc]

/-- C3 (witness): the calibration contract applied at the concrete state of
the spec's example. -/
theorem c3_calibration_model_witness :
    (computeCalib 1000 1000 5.18
        ⟨some ⟨0, 0⟩, some ⟨3 / 10, 2 / 5⟩, none, none⟩).metersPerPixel =
      some (5.18 / pxDistBetween 1000 1000 ⟨0, 0⟩ ⟨3 / 10, 2 / 5⟩) :=
  c3_calibration_model.1 1000 1000 5.18 ⟨0, 0⟩ ⟨3 / 10, 2 / 5⟩
    ⟨some ⟨0, 0⟩, some ⟨3 / 10, 2 / 5⟩, none, none⟩ rfl rfl (by norm_num)
    (by rw [pxDistBetween_example]; norm_num)

/-! ### Claim C5 -/

/-- C5: if marks A and B carry identical timestamps, `compute` leaves the
whole `info` record `null` — the `dt > 0` (time must be positive) condition
rejects the pair before the speed formula and no division by zero occurs. -/
theorem c5_equal_timestamps_rejected (vw vh : ℝ) (mpp : Option ℝ) (skew : ℝ)
    (a b : TimedMark) (h : a.t = b.t) :
    computeAB vw vh mpp skew (some a) (some b) = emptyInfo := by
  cases mpp with
  | none => rfl
  | some m =>
    simp only [computeAB]
    rw [if_neg]
    rintro ⟨-, hdt⟩
    rw [h, sub_self, abs_zero] at hdt
    exact lt_irrefl 0 hdt

/-- C5 (witness): two marks at the same timestamp `t = 2` with a calibrated
scale produce no speed. -/
theorem c5_equal_timestamps_rejected_witness :
    computeAB 1000 1000 (some (1 / 100)) 0 (some ⟨0, 0, 2⟩) (some ⟨1, 1, 2⟩) = emptyInfo :=
  c5_equal_timestamps_rejected 1000 1000 (some (1 / 100)) 0 ⟨0, 0, 2⟩ ⟨1, 1, 2⟩ rfl

/-! ### Claim C9 -/

/-- C9: in the linear-with-skew pipeline the correction divides by
`cos(theta)` with fallback `1` when the cosine is exactly `0`; there is no
near-zero rejection: whenever the guards pass a speed is always produced, and
at a skew of 90° (`cos = 0` exactly in the real model) the displayed speed is
silently the uncorrected `d / dt`, never an error. -/
theorem c9_skew_fallback :
    (∀ (vw vh m skew : ℝ) (a b : TimedMark), m ≠ 0 → a.t ≠ b.t →
        (computeAB vw vh (some m) skew (some a) (some b)).speed_mps =
          some (pxDistBetween vw vh ⟨a.nx, a.ny⟩ ⟨b.nx, b.ny⟩ * m / |a.t - b.t| /
            (if Real.cos (toRad skew) = 0 then 1 else Real.cos (toRad skew)))) ∧
    Real.cos (toRad 90) = 0 ∧
    (∀ (vw vh m : ℝ) (a b : TimedMark), m ≠ 0 → a.t ≠ b.t →
        (computeAB vw vh (some m) 90 (some a) (some b)).speed_mps =
          some (pxDistBetween vw vh ⟨a.nx, a.ny⟩ ⟨b.nx, b.ny⟩ * m / |a.t - b.t|)) := by
  have hcos90 : Real.cos (toRad 90) = 0 := by
    unfold toRad
    rw [show (90 : ℝ) * Real.pi / 180 = Real.pi / 2 by ring, Real.cos_pi_div_two]
  have hmain : ∀ (vw vh m skew : ℝ) (a b : TimedMark), m ≠ 0 → a.t ≠ b.t →
      (computeAB vw vh (some m) skew (some a) (some b)).speed_mps =
        some (pxDistBetween vw vh ⟨a.nx, a.ny⟩ ⟨b.nx, b.ny⟩ * m / |a.t - b.t| /
          (if Real.cos (toRad skew) = 0 then 1 else Real.cos (toRad skew))) := by
    intro vw vh m skew a b hm hab
    simp only [computeAB]
    rw [if_pos ⟨hm, abs_pos.mpr (sub_ne_zero.mpr hab)⟩]
  refine ⟨hmain, hcos90, ?_⟩
  intro vw vh m a b hm hab
  rw [hmain vw vh m 90 a b hm hab, if_pos hcos90, div_one]

/-- C9 (witness): a calibrated pair of marks one second apart with a 90° skew
yields the uncorrected speed. -/
theorem c9_skew_fallback_witness :
    (computeAB 1000 1000 (some (1 / 100)) 90
        (some ⟨0, 0, 0⟩) (some ⟨3 / 10, 2 / 5, 1⟩)).speed_mps =
      some (pxDistBetween 1000 1000 ⟨0, 0⟩ ⟨3 / 10, 2 / 5⟩ * (1 / 100) / |(0 : ℝ) - 1|) :=
  c9_skew_fallback.2.2 1000 1000 (1 / 100) ⟨0, 0, 0⟩ ⟨3 / 10, 2 / 5, 1⟩ (by norm_num)
    (by norm_num)

/-! ### Angle-tool helper lemmas -/

theorem calculateAngle_eval (bs be ae : Pt) (bm am dot : ℝ)
    (hbm : vecMag (be.x - bs.x) (be.y - bs.y) = bm)
    (ham : vecMag (ae.x - be.x) (ae.y - be.y) = am)
    (hdot : (be.x - bs.x) * (ae.x - be.x) + (be.y - bs.y) * (ae.y - be.y) = dot)
    (hne : bm * am ≠ 0) :
    calculateAngle bs be ae =
      some (max 0 (min 90
        (if Real.arccos (dot / (bm * am)) * (180 / Real.pi) > 90
         then 180 - Real.arccos (dot / (bm * am)) * (180 / Real.pi)
         else Real.arccos (dot / (bm * am)) * (180 / Real.pi)))) := by
  unfold calculateAngle rawAngleDeg
  rw [hbm, ham, hdot, if_neg hne]

theorem calcAngle_right_angle : calculateAngle ⟨0, 0⟩ ⟨1, 0⟩ ⟨1, 1⟩ = some 90 := by
  rw [calculateAngle_eval ⟨0, 0⟩ ⟨1, 0⟩ ⟨1, 1⟩ 1 1 0 (by unfold vecMag; norm_num)
    (by unfold vecMag; norm_num) (by norm_num) (by norm_num)]
  have h90 : Real.arccos (0 / (1 * 1)) * (180 / Real.pi) = 90 := by
    rw [show (0 : ℝ) / (1 * 1) = 0 by norm_num, Real.arccos_zero]
    have := Real.pi_ne_zero
    field_simp
    ring
  rw [h90, if_neg (by norm_num), min_self, max_eq_right (by norm_num : (0 : ℝ) ≤ 90)]

theorem calcAngle_flipped_unit : calculateAngle ⟨1, 0⟩ ⟨0, 0⟩ ⟨1, -1⟩ = some 45 := by
  have hs2 : Real.sqrt 2 * Real.sqrt 2 = 2 := Real.mul_self_sqrt (by norm_num)
  have hs2pos : (0 : ℝ) < Real.sqrt 2 := Real.sqrt_pos.mpr (by norm_num)
  rw [calculateAngle_eval ⟨1, 0⟩ ⟨0, 0⟩ ⟨1, -1⟩ 1 (Real.sqrt 2) (-1)
    (by unfold vecMag; norm_num) (by unfold vecMag; norm_num) (by norm_num)
    (by rw [one_mul]; exact hs2pos.ne')]
  have hratio : (-1 : ℝ) / (1 * Real.sqrt 2) = -(Real.sqrt 2 / 2) := by
    rw [one_mul, neg_div, neg_inj, div_eq_div_iff hs2pos.ne' (by norm_num : (2 : ℝ) ≠ 0), hs2]
    norm_num
  have hpi4 : Real.arccos (Real.sqrt 2 / 2) = Real.pi / 4 := by
    rw [← Real.cos_pi_div_four]
    exact Real.arccos_cos (by positivity) (by linarith [Real.pi_pos])
  have harc : Real.arccos (-(Real.sqrt 2 / 2)) * (180 / Real.pi) = 135 := by
    rw [Real.arccos_neg, hpi4]
    have := Real.pi_ne_zero
    field_simp
    ring
  rw [hratio, harc, if_pos (by norm_num : (135 : ℝ) > 90),
    show (180 : ℝ) - 135 = 45 by norm_num,
    min_eq_right (by norm_num : (45 : ℝ) ≤ 90), max_eq_right (by norm_num : (0 : ℝ) ≤ 45)]

/-! ### Claim C4 -/

/-- C4: for every placement with both segments non-degenerate, the
dot-product/acos angle (reflecting obtuse results) lies in `[0°, 90°]`, and a
baseline and free end at a perfect right angle report exactly `90`. -/
theorem c4_angle_range :
    (∀ bs be ae : Pt,
        vecMag (be.x - bs.x) (be.y - bs.y) ≠ 0 →
        vecMag (ae.x - be.x) (ae.y - be.y) ≠ 0 →
        ∃ a, calculateAngle bs be ae = some a ∧ 0 ≤ a ∧ a ≤ 90) ∧
    calculateAngle ⟨0, 0⟩ ⟨1, 0⟩ ⟨1, 1⟩ = some 90 := by
  refine ⟨?_, calcAngle_right_angle⟩
  intro bs be ae h1 h2
  refine ⟨max 0 (min 90
    (if rawAngleDeg bs be ae > 90 then 180 - rawAngleDeg bs be ae else rawAngleDeg bs be ae)),
    ?_, le_max_left _ _, max_le (by norm_num) (min_le_left _ _)⟩
  unfold calculateAngle
  rw [if_neg (mul_ne_zero h1 h2)]

/-- C4 (witness): a concrete non-degenerate rig. -/
theorem c4_angle_range_witness :
    ∃ a, calculateAngle ⟨0, 0⟩ ⟨2, 0⟩ ⟨2, 3⟩ = some a ∧ 0 ≤ a ∧ a ≤ 90 :=
  c4_angle_range.1 ⟨0, 0⟩ ⟨2, 0⟩ ⟨2, 3⟩
    (by unfold vecMag; rw [Real.sqrt_ne_zero']; norm_num)
    (by unfold vecMag; rw [Real.sqrt_ne_zero']; norm_num)

/-! ### Claim C6 -/

/-- C6 (code evaluated at the failing input): with the base segment collapsed
to a point (drag B onto A), the dot-product `calculateAngle` evaluates
`0/0 = NaN`, `Math.acos(NaN) = NaN`, and the `min`/`max` clamp propagates the
`NaN` (modelled `none`) instead of reporting a sentinel value such as `0°`. -/
theorem c6_degenerate_propagates_nan :
    calculateAngle ⟨150, 200⟩ ⟨150, 200⟩ ⟨350, 300⟩ = none := by
  unfold calculateAngle
  rw [if_pos]
  unfold vecMag
  norm_num

/-! ### Claim C7 -/

theorem flip_eval_unit :
    btnFlipAngle (⟨0, 0⟩, ⟨1, 0⟩, ⟨1, 1⟩) = (⟨1, 0⟩, ⟨0, 0⟩, ⟨1, -1⟩) := by
  unfold btnFlipAngle
  simp only [Prod.mk.injEq, Pt.mk.injEq]
  norm_num

/-- C7 (amended): `btnFlipAngle` swaps the baseline endpoints and reflects the
free end across the baseline; applying it twice restores the original rig
exactly, hence the original angle value (round-trip invariant). A single flip
does not, however, preserve the measured angle magnitude. -/
theorem c7_flip_round_trip (bs be ae : Pt) (h : bs ≠ be) :
    btnFlipAngle (btnFlipAngle (bs, be, ae)) = (bs, be, ae) ∧
    calculateAngleTriple (btnFlipAngle (btnFlipAngle (bs, be, ae))) =
      calculateAngleTriple (bs, be, ae) := by
  have hm : (bs.x - be.x) * (bs.x - be.x) + (bs.y - be.y) * (bs.y - be.y) ≠ 0 := by
    intro h0
    apply h
    have h1 : (bs.x - be.x) * (bs.x - be.x) = 0 :=
      le_antisymm (by nlinarith [mul_self_nonneg (bs.y - be.y)]) (mul_self_nonneg _)
    have h2 : (bs.y - be.y) * (bs.y - be.y) = 0 := by linarith [h0, h1]
    have hx := mul_self_eq_zero.mp h1
    have hy := mul_self_eq_zero.mp h2
    exact Pt.ext (by linarith) (by linarith)
  have hm2 : (be.x - bs.x) * (be.x - bs.x) + (be.y - bs.y) * (be.y - bs.y) ≠ 0 := by
    rw [show (be.x - bs.x) * (be.x - bs.x) + (be.y - bs.y) * (be.y - bs.y) =
      (bs.x - be.x) * (bs.x - be.x) + (bs.y - be.y) * (bs.y - be.y) by ring]
    exact hm
  have heq : btnFlipAngle (btnFlipAngle (bs, be, ae)) = (bs, be, ae) := by
    unfold btnFlipAngle
    simp only [Prod.mk.injEq]
    refine ⟨trivial, trivial, ?_⟩
    refine Pt.ext ?_ ?_ <;>
      · field_simp
        ring
  exact ⟨heq, by rw [heq]⟩

/-- C7 (witness): the flip round trip at the rig `A=(0,0)`, `B=(1,0)`,
`C=(1,1)`. -/
theorem c7_flip_round_trip_witness :
    btnFlipAngle (btnFlipAngle (⟨0, 0⟩, ⟨1, 0⟩, ⟨1, 1⟩)) =
      ((⟨0, 0⟩ : Pt), (⟨1, 0⟩ : Pt), (⟨1, 1⟩ : Pt)) ∧
    calculateAngleTriple (btnFlipAngle (btnFlipAngle (⟨0, 0⟩, ⟨1, 0⟩, ⟨1, 1⟩))) =
      calculateAngleTriple ((⟨0, 0⟩ : Pt), (⟨1, 0⟩ : Pt), (⟨1, 1⟩ : Pt)) :=
  c7_flip_round_trip ⟨0, 0⟩ ⟨1, 0⟩ ⟨1, 1⟩ (by simp [Pt.ext_iff])

/-- C7 (counterexample): a single flip does not preserve the measured angle —
the right-angle rig `A=(0,0)`, `B=(1,0)`, `C=(1,1)` reads `90°`, but after one
flip the recomputed angle is `45°`. -/
theorem c7_flip_angle_counterexample :
    calculateAngleTriple (btnFlipAngle (⟨0, 0⟩, ⟨1, 0⟩, ⟨1, 1⟩)) ≠
      calculateAngleTriple (⟨0, 0⟩, ⟨1, 0⟩, ⟨1, 1⟩) := by
  rw [flip_eval_unit]
  unfold calculateAngleTriple
  rw [calcAngle_flipped_unit, calcAngle_right_angle]
  norm_num

end SmashCalc
